import Mathlib

/-!
Shallow embedding of the mux-monitor Prometheus middleware (Go package
mux_monitor): the ResponseWriter interceptor, the Monitor constructor `New`,
the per-request middleware `Prometheus`, `CollectDependencyTime`, and the
dependency-checker tick performed by `AddDependencyChecker`'s goroutine.

Modelling conventions:
* Go `int` is `Int`; Go `uint64` arithmetic is `Nat` reduced `% 2 ^ 64` at
  every update, exactly where the source uses `atomic.AddUint64`.
* Prometheus metric values (`float64`) are modelled as exact rationals `ℚ`;
  a histogram series is the list of its observations, a counter its running
  sum, a gauge an optional current value (`none` = series never populated).
* `net/http` headers are an association list; `Header.Get` returns the first
  value for a key (empty string if absent) and `Header.Del` removes the key.
  Go canonicalises the key identically in Get/Set/Del, so raw string keys
  are observationally faithful.
* The underlying `http.ResponseWriter.Write` is modelled as the standard
  successful write: it reports `n = len(b)`.  The interceptor adds whatever
  `n` the underlying writer reports and forwards the result unchanged.
* Wall-clock time is abstracted: the elapsed duration observed by the
  middleware is a parameter `d`, and the ticker of `AddDependencyChecker`
  is modelled as a tick-indexed step function (one step per elapsed period).
* `mux.CurrentRoute` yields `Option Route`; calling `GetPathTemplate` on a
  `nil` route reads a field of a nil pointer in Go, which panics — modelled
  as `Except GoPanic`.
-/

/-- One entry of Go's `unicode.IsSpace` (White_Space property plus the
Latin-1 fast path), used by `strings.TrimSpace`. -/
def goIsSpace (c : Char) : Bool :=
  c == ' ' || c == '\t' || c == '\n' || c == Char.ofNat 11 || c == Char.ofNat 12 ||
  c == '\r' || c == Char.ofNat 0x85 || c == Char.ofNat 0xA0 ||
  c == Char.ofNat 0x1680 || (0x2000 ≤ c.toNat && c.toNat ≤ 0x200A) ||
  c == Char.ofNat 0x2028 || c == Char.ofNat 0x2029 || c == Char.ofNat 0x202F ||
  c == Char.ofNat 0x205F || c == Char.ofNat 0x3000

/-- `strings.TrimSpace`: drop leading and trailing Unicode white space. -/
def trimSpace (s : String) : String :=
  String.mk (((s.data.dropWhile goIsSpace).reverse.dropWhile goIsSpace).reverse)

/-- `strconv.FormatBool`. -/
def formatBool (b : Bool) : String := if b then "true" else "false"

/-- Request headers: association list, first binding for a key wins on Get. -/
abbrev Header : Type := List (String × String)

/-- `http.Header.Get`-style lookup returning the first value, if any. -/
def headerLookup (hs : Header) (key : String) : Option String :=
  (List.find? (fun p => p.1 == key) hs).map (fun p => p.2)

/-- `http.Header.Get`: first value for the key, \x22\x22 if the key is absent. -/
def headerGet (hs : Header) (key : String) : String :=
  (headerLookup hs key).getD ""

/-- `http.Header.Del`: remove every binding of the key. -/
def headerDel (hs : Header) (key : String) : Header :=
  List.filter (fun p => !(p.1 == key)) hs

/-- The interceptor `ResponseWriter` (responsewriter.go): records the last
status code written and the cumulative byte count (`uint64`, atomic).  The
`started` timestamp is abstracted into the duration parameter of the
middleware model. -/
structure ResponseWriter where
  statusCode : Int
  count : Nat
deriving DecidableEq

/-- `NewResponseWriter`: defaults the status code to `http.StatusOK` (200)
because `WriteHeader` is not called when the response implicitly succeeds. -/
def NewResponseWriter : ResponseWriter := { statusCode := 200, count := 0 }

/-- `ResponseWriter.WriteHeader`: records the code (last write wins) and
forwards it to the underlying writer. -/
def ResponseWriter.WriteHeader (r : ResponseWriter) (code : Int) : ResponseWriter :=
  { r with statusCode := code }

/-- `ResponseWriter.Write`: forwards to the underlying writer (modelled as a
successful write reporting `n = len(b)`), adds `n` to the `uint64` counter
with `atomic.AddUint64`, and returns the underlying result unchanged. -/
def ResponseWriter.Write (r : ResponseWriter) (b : List Nat) : ResponseWriter × Nat :=
  ({ r with count := (r.count + b.length) % 2 ^ 64 }, b.length)

/-- `ResponseWriter.Count`: atomically reads the byte counter. -/
def ResponseWriter.Count (r : ResponseWriter) : Nat := r.count

/-- `ResponseWriter.StatusCodeStr`: `strconv.Itoa` of the recorded status. -/
def ResponseWriter.StatusCodeStr (r : ResponseWriter) : String := toString r.statusCode

/-- One interaction of the inner handler with the wrapped response writer. -/
inductive WriterEvent where
  | write (chunk : List Nat)
  | writeHeader (code : Int)
deriving DecidableEq

/-- Replay a trace of handler interactions against the interceptor. -/
def runWriter (r : ResponseWriter) : List WriterEvent → ResponseWriter
  | [] => r
  | WriterEvent.write chunk :: rest => runWriter (ResponseWriter.Write r chunk).1 rest
  | WriterEvent.writeHeader code :: rest => runWriter (ResponseWriter.WriteHeader r code) rest

/-- The last status code passed to `WriteHeader` in a trace, if any. -/
def lastWriteHeader : List WriterEvent → Option Int
  | [] => none
  | WriterEvent.write _ :: rest => lastWriteHeader rest
  | WriterEvent.writeHeader code :: rest => some ((lastWriteHeader rest).getD code)

/-- Total byte length of all `Write` calls in a trace. -/
def sumWrites : List WriterEvent → Nat
  | [] => 0
  | WriterEvent.write chunk :: rest => chunk.length + sumWrites rest
  | WriterEvent.writeHeader _ :: rest => sumWrites rest

/-- The six-value label tuple `{type, status, method, addr, isError,
errorMessage}` passed to `WithLabelValues` for the request series. -/
structure Labels where
  reqType : String
  status : String
  method : String
  addr : String
  isError : String
  errorMessage : String
deriving DecidableEq

/-- The seven-value label tuple of the dependency duration histogram. -/
structure DepLabels where
  name : String
  reqType : String
  status : String
  method : String
  addr : String
  isError : String
  errorMessage : String
deriving DecidableEq

/-- The Prometheus series owned by the Monitor: request duration histogram,
response size counter, dependency duration histogram, dependency-up gauge,
application-info gauge. -/
structure MetricsState where
  reqDuration : Labels → List ℚ
  respSize : Labels → ℚ
  dependencyReqDuration : DepLabels → List ℚ
  dependencyUP : String → Option ℚ
  applicationInfo : String → Option ℚ

/-- The registry before any series has been populated. -/
def MetricsState.empty : MetricsState :=
  ⟨fun _ => [], fun _ => 0, fun _ => [], fun _ => none, fun _ => none⟩

/-- `DependencyStatus`: `DOWN` then `UP` (iota order, so DOWN = 0, UP = 1). -/
inductive DependencyStatus where
  | DOWN
  | UP
deriving DecidableEq

/-- Numeric value of a `DependencyStatus` (its iota value). -/
def DependencyStatus.toInt : DependencyStatus → Int
  | DependencyStatus.DOWN => 0
  | DependencyStatus.UP => 1

/-- `float64(status)` as used when setting the dependency-up gauge. -/
def statusToFloat (s : DependencyStatus) : ℚ := (s.toInt : ℚ)

/-- The `DependencyChecker` capability; `Check` is indexed by the tick number
so that a checker may answer differently over time. -/
structure DependencyChecker where
  GetDependencyName : String
  Check : Nat → DependencyStatus

/-- The `Monitor` struct: the series live in `MetricsState`; the monitor
keeps the configured error-message header key, the injectable status
classifier, and the histogram buckets. -/
structure Monitor where
  errorMessageKey : String
  IsStatusError : Int → Bool
  buckets : List ℚ

/-- Package-level `IsStatusError`: true iff the code is outside [200, 400). -/
def IsStatusError (statusCode : Int) : Bool :=
  decide (statusCode < 200) || decide (400 ≤ statusCode)

/-- `DefaultErrorMessageKey`. -/
def DefaultErrorMessageKey : String := "error-message"

/-- `DefaultBuckets`. -/
def DefaultBuckets : List ℚ := [0.1, 0.3, 1.5, 10.5]

/-- `New(applicationVersion, errorMessageKey, buckets)`: validates the
version, (dead code in the source: the second guard re-tests
`applicationVersion`, not `errorMessageKey`), defaults nil buckets,
registers the series and sets `application_info{version} = 1`.  The
registry state is threaded explicitly; the error branch returns it
untouched because the source returns before registering anything. -/
def New (applicationVersion : String) (errorMessageKey : String)
    (buckets : Option (List ℚ)) (st : MetricsState) :
    Except String Monitor × MetricsState :=
  if trimSpace applicationVersion = "" then
    (Except.error "application version must be a non-empty string", st)
  else
    let errorMessageKey :=
      if trimSpace applicationVersion = "" then DefaultErrorMessageKey else errorMessageKey
    let buckets := buckets.getD DefaultBuckets
    let monitor : Monitor :=
      { errorMessageKey := errorMessageKey, IsStatusError := IsStatusError,
        buckets := buckets }
    (Except.ok monitor,
      { st with applicationInfo :=
          Function.update st.applicationInfo applicationVersion (some 1) })

/-- `Monitor.collectTime`: one `Observe` on the request duration histogram. -/
def collectTime (st : MetricsState) (l : Labels) (durationSeconds : ℚ) : MetricsState :=
  { st with reqDuration :=
      Function.update st.reqDuration l (st.reqDuration l ++ [durationSeconds]) }

/-- `Monitor.collectSize`: one `Add` on the response size counter. -/
def collectSize (st : MetricsState) (l : Labels) (size : ℚ) : MetricsState :=
  { st with respSize := Function.update st.respSize l (st.respSize l + size) }

/-- `Monitor.CollectDependencyTime`: one `Observe` on the dependency
duration histogram; a pure pass-through recorder. -/
def CollectDependencyTime (st : MetricsState)
    (name reqType status method addr isError errorMessage : String)
    (durationSeconds : ℚ) : MetricsState :=
  let l : DepLabels := ⟨name, reqType, status, method, addr, isError, errorMessage⟩
  let obs := st.dependencyReqDuration l ++ [durationSeconds]
  { st with dependencyReqDuration := Function.update st.dependencyReqDuration l obs }

/-- A `mux.Route`'s `GetPathTemplate` result: either the normalized path
template or an error (route built with an error, or no path template). -/
structure Route where
  getPathTemplate : Except String String

/-- An inbound request as the middleware observes it. -/
structure Request where
  proto : String
  method : String
  headers : Header

/-- The inner handler chain, characterised by its interactions: the ordered
trace of calls on the wrapped response writer and the transformation it
applies to the request headers (e.g. setting the error-message header). -/
structure HandlerBehavior where
  events : List WriterEvent
  headersAfter : Header → Header

/-- Result of one execution of the middleware's per-request function. -/
structure RunResult where
  labels : Labels
  metrics : MetricsState
  reqHeaders : Header
  rw : ResponseWriter

/-- The body of the handler returned by `Monitor.Prometheus`, for a request
whose current route resolved: wrap the writer, resolve the path template
(discarding the error: `path, _ := route.GetPathTemplate()` leaves the zero
value \x22\x22), run the inner handler, then read status, classifier verdict and
error-message header (read then delete) and record the duration observation
and the size increment under the six-value label tuple. -/
def prometheusRun (m : Monitor) (st : MetricsState) (req : Request) (rt : Route)
    (h : HandlerBehavior) (d : ℚ) : RunResult :=
  let path : String :=
    match rt.getPathTemplate with
    | Except.ok t => t
    | Except.error _ => ""
  let rw := runWriter NewResponseWriter h.events
  let hdrs := h.headersAfter req.headers
  let statusCodeStr := ResponseWriter.StatusCodeStr rw
  let isErrorStr := formatBool (m.IsStatusError rw.statusCode)
  let errorMessage := headerGet hdrs m.errorMessageKey
  let hdrs2 := headerDel hdrs m.errorMessageKey
  let labels : Labels := ⟨req.proto, statusCodeStr, req.method, path, isErrorStr, errorMessage⟩
  let st1 := collectTime st labels d
  let st2 := collectSize st1 labels ((ResponseWriter.Count rw : ℚ))
  ⟨labels, st2, hdrs2, rw⟩

/-- Go panic outcomes reachable in the middleware. -/
inductive GoPanic where
  | nilPointerDereference
deriving DecidableEq

/-- The handler returned by `Monitor.Prometheus`, including route
resolution: `mux.CurrentRoute` may yield no route (`nil`), in which case
`route.GetPathTemplate()` reads a field of a nil pointer and panics. -/
def prometheusServe (m : Monitor) (st : MetricsState) (req : Request)
    (route : Option Route) (h : HandlerBehavior) (d : ℚ) :
    Except GoPanic RunResult :=
  match route with
  | none => Except.error GoPanic.nilPointerDereference
  | some rt => Except.ok (prometheusRun m st req rt h d)

/-- One firing of the ticker started by `AddDependencyChecker`: invoke
`checker.Check()` and set the dependency-up gauge for the checker's name to
`float64(status)`. -/
def dependencyTick (c : DependencyChecker) (i : Nat) (st : MetricsState) : MetricsState :=
  let v := some (statusToFloat (c.Check i))
  { st with dependencyUP := Function.update st.dependencyUP c.GetDependencyName v }

/-- The state after `k` elapsed periods of a registered checker's ticker. -/
def runChecker (c : DependencyChecker) : Nat → MetricsState → MetricsState
  | 0, st => st
  | Nat.succ k, st => dependencyTick c k (runChecker c k st)

/-- Any metric-touching operation of a constructed Monitor. -/
inductive MonitorOp where
  | request (req : Request) (rt : Route) (h : HandlerBehavior) (d : ℚ)
  | collectDependencyTime
      (name reqType status method addr isError errorMessage : String) (d : ℚ)
  | dependencyTick (c : DependencyChecker) (i : Nat)

/-- Apply one Monitor operation to the registry state. -/
def applyOp (m : Monitor) (st : MetricsState) : MonitorOp → MetricsState
  | MonitorOp.request req rt h d => (prometheusRun m st req rt h d).metrics
  | MonitorOp.collectDependencyTime n t s me a ie em d =>
      CollectDependencyTime st n t s me a ie em d
  | MonitorOp.dependencyTick c i => dependencyTick c i st

/-- Apply a sequence of Monitor operations in order. -/
def applyOps (m : Monitor) (ops : List MonitorOp) (st : MetricsState) : MetricsState :=
  ops.foldl (applyOp m) st

/-- Concrete monitor used by closed witness statements. -/
def m0 : Monitor :=
  { errorMessageKey := "error-message", IsStatusError := IsStatusError,
    buckets := DefaultBuckets }

/-- Concrete request used by closed witness statements. -/
def req0 : Request := { proto := "HTTP/1.1", method := "GET", headers := [] }

/-- Concrete route used by closed witness statements. -/
def rt0 : Route := { getPathTemplate := Except.ok "/" }

/-- Concrete handler trace used by closed witness statements: two writes and
one explicit status. -/
def h0 : HandlerBehavior :=
  { events := [WriterEvent.write [104, 105], WriterEvent.writeHeader 404,
               WriterEvent.write [33]],
    headersAfter := fun hs => hs }

/-! ## Helper lemmas -/

/-- Replaying a trace leaves the interceptor's status code at the last
`WriteHeader` argument, defaulting to the initial status. -/
theorem runWriter_statusCode (evs : List WriterEvent) :
    ∀ rw : ResponseWriter,
      (runWriter rw evs).statusCode = (lastWriteHeader evs).getD rw.statusCode := by
  induction evs with
  | nil => intro rw; rfl
  | cons e rest ih =>
    intro rw
    cases e with
    | write chunk =>
        simp [runWriter, lastWriteHeader, ResponseWriter.Write, ih]
    | writeHeader code =>
        simp [runWriter, lastWriteHeader, ResponseWriter.WriteHeader, ih]

/-- Replaying a trace accumulates the byte counter modulo `2 ^ 64`. -/
theorem runWriter_count (evs : List WriterEvent) :
    ∀ rw : ResponseWriter, rw.count < 2 ^ 64 →
      (runWriter rw evs).count = (rw.count + sumWrites evs) % 2 ^ 64 := by
  induction evs with
  | nil =>
      intro rw hlt
      simp only [runWriter, sumWrites, Nat.add_zero]
      exact (Nat.mod_eq_of_lt hlt).symm
  | cons e rest ih =>
    intro rw hlt
    cases e with
    | write chunk =>
        have hlt2 : (rw.count + chunk.length) % 2 ^ 64 < 2 ^ 64 :=
          Nat.mod_lt _ (by positivity)
        have hrec := ih { rw with count := (rw.count + chunk.length) % 2 ^ 64 } hlt2
        simp only [runWriter, ResponseWriter.Write, sumWrites]
        rw [hrec]
        simp [Nat.mod_add_mod, Nat.add_assoc]
    | writeHeader code =>
        simp only [runWriter, ResponseWriter.WriteHeader, sumWrites]
        exact ih { rw with statusCode := code } hlt

/-- After `Header.Del`, looking the key up finds nothing. -/
theorem headerLookup_headerDel (hs : Header) (key : String) :
    headerLookup (headerDel hs key) key = none := by
  induction hs with
  | nil => rfl
  | cons p rest ih =>
      by_cases hpk : p.1 == key
      · simp only [headerDel, List.filter, hpk] at ih ⊢
        exact ih
      · simp only [headerDel, headerLookup, List.filter, List.find?, hpk] at ih ⊢
        exact ih

/-- After `Header.Del`, a `Header.Get` of the key returns the empty string. -/
theorem headerGet_headerDel (hs : Header) (key : String) :
    headerGet (headerDel hs key) key = "" := by
  simp [headerGet, headerLookup_headerDel]

/-- No Monitor operation touches the application-info gauge. -/
theorem applyOp_applicationInfo (m : Monitor) (st : MetricsState) (op : MonitorOp) :
    (applyOp m st op).applicationInfo = st.applicationInfo := by
  cases op with
  | request req rt h d => rfl
  | collectDependencyTime n t s me a ie em d => rfl
  | dependencyTick c i => rfl

/-- No sequence of Monitor operations touches the application-info gauge. -/
theorem applyOps_applicationInfo (m : Monitor) (ops : List MonitorOp) :
    ∀ st : MetricsState, (applyOps m ops st).applicationInfo = st.applicationInfo := by
  induction ops with
  | nil => intro st; rfl
  | cons op rest ih =>
      intro st
      have hstep : applyOps m (op :: rest) st = applyOps m rest (applyOp m st op) := rfl
      rw [hstep, ih, applyOp_applicationInfo]

/-! ## Claim theorems -/

/-- C1: for every request handled by the Prometheus middleware, the status
label recorded in both the duration observation and the size increment
equals the last status code the inner handler passed to WriteHeader, or
\x22200\x22 when WriteHeader was never called (last write wins; the default
persists only when no write occurred). -/
theorem status_label_last_write_wins (m : Monitor) (st : MetricsState)
    (req : Request) (rt : Route) (h : HandlerBehavior) (d : ℚ) :
    (prometheusRun m st req rt h d).labels.status
        = toString ((lastWriteHeader h.events).getD 200)
    ∧ (prometheusRun m st req rt h d).metrics.reqDuration (prometheusRun m st req rt h d).labels
        = st.reqDuration (prometheusRun m st req rt h d).labels ++ [d]
    ∧ (prometheusRun m st req rt h d).metrics.respSize (prometheusRun m st req rt h d).labels
        = st.respSize (prometheusRun m st req rt h d).labels
            + ((sumWrites h.events % 2 ^ 64 : Nat) : ℚ) := by
  have hcount := runWriter_count h.events NewResponseWriter (by norm_num [NewResponseWriter])
  simp only [NewResponseWriter, Nat.zero_add] at hcount
  refine ⟨?_, ?_, ?_⟩
  · simp [prometheusRun, ResponseWriter.StatusCodeStr, runWriter_statusCode, NewResponseWriter]
  · simp [prometheusRun, collectTime, collectSize, Function.update_same]
  · simp [prometheusRun, collectTime, collectSize, ResponseWriter.Count,
      Function.update_same, hcount, NewResponseWriter]

/-- C2: the response_size_bytes counter for the request's label tuple is
incremented by exactly the sum of the byte-lengths of all Write calls made
by the inner handler, however many separate writes occurred (stated under
the physically inevitable side condition that the total stays below the
uint64 wrap-around bound). -/
theorem response_size_sum_of_writes (m : Monitor) (st : MetricsState)
    (req : Request) (rt : Route) (h : HandlerBehavior) (d : ℚ)
    (hb : sumWrites h.events < 2 ^ 64) :
    (prometheusRun m st req rt h d).metrics.respSize (prometheusRun m st req rt h d).labels
      = st.respSize (prometheusRun m st req rt h d).labels + (sumWrites h.events : ℚ) := by
  have hcount := runWriter_count h.events NewResponseWriter (by norm_num [NewResponseWriter])
  simp only [NewResponseWriter, Nat.zero_add] at hcount
  rw [Nat.mod_eq_of_lt hb] at hcount
  simp [prometheusRun, collectTime, collectSize, ResponseWriter.Count,
    Function.update_same, hcount, NewResponseWriter]

/-- C2 witness: a concrete request with three writes totalling three bytes. -/
theorem response_size_sum_of_writes_witness :
    sumWrites h0.events < 2 ^ 64
    ∧ (prometheusRun m0 MetricsState.empty req0 rt0 h0 0).metrics.respSize
          (prometheusRun m0 MetricsState.empty req0 rt0 h0 0).labels
        = MetricsState.empty.respSize (prometheusRun m0 MetricsState.empty req0 rt0 h0 0).labels
            + (sumWrites h0.events : ℚ) :=
  ⟨by decide, response_size_sum_of_writes m0 MetricsState.empty req0 rt0 h0 0 (by decide)⟩

/-- C3: the isError label is the string form of the monitor's classifier
applied to the final status code; the package default classifier holds
exactly on codes below 200 or at least 400 (199 error, 200 not, 399 not,
400 error), and New installs it as the monitor classifier. -/
theorem is_error_label_matches_classifier (m : Monitor) (st : MetricsState)
    (req : Request) (rt : Route) (h : HandlerBehavior) (d : ℚ) :
    (prometheusRun m st req rt h d).labels.isError
        = formatBool (m.IsStatusError ((lastWriteHeader h.events).getD 200))
    ∧ (∀ c : Int, IsStatusError c = (decide (c < 200) || decide (400 ≤ c)))
    ∧ IsStatusError 199 = true ∧ IsStatusError 200 = false
    ∧ IsStatusError 399 = false ∧ IsStatusError 400 = true
    ∧ (∀ v k b st2, match (New v k b st2).1 with
        | Except.ok mm => mm.IsStatusError = IsStatusError
        | Except.error _ => True) := by
  refine ⟨?_, fun c => rfl, by decide, by decide, by decide, by decide, ?_⟩
  · simp [prometheusRun, runWriter_statusCode, NewResponseWriter]
  · intro v k b st2
    by_cases hv : trimSpace v = "" <;> simp [New, hv]

/-- C4: the middleware records the configured request header's value
verbatim as the errorMessage label (empty string when absent, via the
getD-on-lookup form) and deletes the header, so any read of that request
header after middleware execution returns the empty string. -/
theorem error_message_header_recorded_and_consumed (m : Monitor) (st : MetricsState)
    (req : Request) (rt : Route) (h : HandlerBehavior) (d : ℚ) :
    (prometheusRun m st req rt h d).labels.errorMessage
        = (headerLookup (h.headersAfter req.headers) m.errorMessageKey).getD ""
    ∧ headerGet (prometheusRun m st req rt h d).reqHeaders m.errorMessageKey = "" := by
  constructor
  · simp [prometheusRun, headerGet]
  · simp [prometheusRun, headerGet_headerDel]

/-- C5: New returns an error exactly when the application version trims to
the empty string — and in that case it returns precisely the configuration
error with the registry untouched, so no Monitor exists and no metric side
effect occurred — while for every non-blank version New succeeds with a
Monitor. -/
theorem new_fails_iff_blank_version (v k : String) (b : Option (List ℚ))
    (st : MetricsState) :
    ((∃ e, (New v k b st).1 = Except.error e) ↔ trimSpace v = "")
    ∧ ((∃ m, (New v k b st).1 = Except.ok m) ↔ trimSpace v ≠ "")
    ∧ (trimSpace v ≠ ""
        ∨ New v k b st = (Except.error "application version must be a non-empty string", st)) := by
  by_cases hv : trimSpace v = ""
  · refine ⟨?_, ?_, Or.inr ?_⟩ <;> simp [New, hv]
  · refine ⟨?_, ?_, Or.inl hv⟩ <;> simp [New, hv]

/-- C6 (code bug witness): with a non-blank version and an empty
errorMessageKey argument, New succeeds but leaves the monitor's key empty —
the documented default \x22error-message\x22 is never applied, because the
defaulting guard in the source re-tests applicationVersion instead of
errorMessageKey (dead code). -/
theorem default_error_message_key_never_applied :
    ∃ m, (New "v1.0.0" "" none MetricsState.empty).1 = Except.ok m
      ∧ m.errorMessageKey = "" ∧ m.errorMessageKey ≠ DefaultErrorMessageKey := by
  have hv : trimSpace "v1.0.0" ≠ "" := by decide
  exact ⟨⟨"", IsStatusError, DefaultBuckets⟩, by simp [New, hv, DefaultBuckets], rfl,
    by decide⟩

/-- C7 counterexample: when the routing abstraction resolves no current
route (mux.CurrentRoute is nil, e.g. a request reaching the middleware via
the router's not-found path), the middleware dereferences the nil route and
panics instead of completing. -/
theorem middleware_panics_without_current_route :
    prometheusServe m0 MetricsState.empty req0 none h0 0
      = Except.error GoPanic.nilPointerDereference := rfl

/-- C7 amended: whenever a current route is resolved, the wrapped handler
completes without error for every request, and the route label is the
resolved path template, or the empty string when the template is
unresolved; only a nil current route makes the middleware panic. -/
theorem middleware_total_on_resolved_route (m : Monitor) (st : MetricsState)
    (req : Request) (rt : Route) (h : HandlerBehavior) (d : ℚ) :
    prometheusServe m st req (some rt) h d = Except.ok (prometheusRun m st req rt h d)
    ∧ (prometheusRun m st req rt h d).labels.addr
        = (match rt.getPathTemplate with
            | Except.ok t => t
            | Except.error _ => "") := by
  exact ⟨rfl, rfl⟩

/-- C8: at every elapsed period of a registered checker's ticker, the
dependency-up gauge of the checker's name is set to the numeric encoding of
the status the checker just returned, with UP encoded as 1 and DOWN as 0. -/
theorem dependency_tick_sets_gauge (c : DependencyChecker) (st : MetricsState)
    (k : Nat) :
    (runChecker c (k + 1) st).dependencyUP c.GetDependencyName
        = some (statusToFloat (c.Check k))
    ∧ statusToFloat DependencyStatus.UP = 1
    ∧ statusToFloat DependencyStatus.DOWN = 0 := by
  refine ⟨?_, by norm_num [statusToFloat, DependencyStatus.toInt],
    by norm_num [statusToFloat, DependencyStatus.toInt]⟩
  simp [runChecker, dependencyTick, Function.update_same]

/-- C9: after a successful construction the application_info gauge for the
given version is exactly 1, and no sequence of Monitor operations
(middleware requests, CollectDependencyTime, dependency ticks) ever changes
the application-info gauge afterward. -/
theorem application_info_set_once_and_immutable (v k : String) (b : Option (List ℚ))
    (st : MetricsState) (m : Monitor) (ops : List MonitorOp) :
    (trimSpace v = "" ∨ (New v k b st).2.applicationInfo v = some 1)
    ∧ (applyOps m ops (New v k b st).2).applicationInfo
        = (New v k b st).2.applicationInfo := by
  constructor
  · by_cases hv : trimSpace v = ""
    · exact Or.inl hv
    · exact Or.inr (by simp [New, hv, Function.update_same])
  · exact applyOps_applicationInfo m ops _
